import Mathlib

/-!
Verification of the Research Orchestration Engine of `event-deep-research`.

The definitions below are a shallow embedding of the Python sources:
  * `src/graph.py`          — supervisor loop, fan-out dispatcher, batch merge
  * `src/research_events/research_events_graph.py` — per-question query executor
  * `src/research_events/merge_events/merge_events_graph.py` — chunk merge pipeline
  * `src/research_types/*`  — research-type (domain strategy) data structures
External effectful collaborators (LLM calls, search backends, crawler, chunker)
are oracle parameters; exceptions raised by Python code are `Except`/`Option`
values.  A Pydantic model instance whose fields are all strings is embedded as
an ordered association list from field name to field value.
-/

namespace EventDeepResearch

/-- A Pydantic data object with string fields (e.g. `CategoriesWithEvents`,
`CompanyData`): the ordered list of (field name, field value) pairs.
Every field declared by the model class is present, in declaration order. -/
abbrev DataObject := List (String × String)

/-- Python `getattr(obj, field_name, "")` for a string-field model. -/
def get_attr (obj : DataObject) (field : String) : String :=
  (List.lookup field obj).getD ""

/-- Python `str.strip()` (restricted to ASCII whitespace): drop leading and
trailing whitespace characters.  Defined over the character list so that it
evaluates inside the kernel. -/
def py_strip (s : String) : String :=
  String.mk (((s.data.dropWhile Char.isWhitespace).reverse.dropWhile Char.isWhitespace).reverse)

/-- The biography research type's field names, in model declaration order
(`CategoriesWithEvents` in `src/research_types/biography.py`). -/
def bioFields : List String := ["early", "personal", "career", "legacy"]

/-- `BiographyResearchType.get_initial_data_structure()`:
`CategoriesWithEvents(early="", personal="", career="", legacy="")`. -/
def bioInitial : DataObject := [("early", ""), ("personal", ""), ("career", ""), ("legacy", "")]

/-! ### `merge_data_objects` (src/graph.py lines 31-72) -/

/-- The stripped, non-empty values collected for one field across the data
objects, in order (the inner loop of `merge_data_objects`): Python
`if obj:` skips `None` entries, and `if value and value.strip():` keeps
`value.strip()` exactly when the stripped value is non-empty. -/
def merge_field_values (data_objects : List (Option DataObject)) (field : String) :
    List String :=
  data_objects.filterMap fun obj? =>
    obj?.bind fun obj =>
      let v := py_strip (get_attr obj field)
      if v = "" then none else some v

/-- `merge_data_objects(data_objects, research_type)` from src/graph.py:
empty input or a `None` head returns `research_type.get_initial_data_structure()`
(embedded as `initial`); otherwise the field names are taken from the model
class of the first object and each field is the `"\n\n"`-join of the collected
non-empty stripped values. -/
def merge_data_objects (data_objects : List (Option DataObject)) (initial : DataObject) :
    DataObject :=
  match data_objects with
  | [] => initial
  | none :: _ => initial
  | some fst :: _ =>
    (fst.map Prod.fst).map fun field =>
      let field_values := merge_field_values data_objects field
      (field, if field_values.isEmpty then "" else String.intercalate "\n\n" field_values)

/-- The spec's wording of the per-category batch merge (§4.4, claim C4):
"the newline-separated join of the stripped, non-empty values contributed by
each successful result in order".  Kept separate from the source-derived
`merge_data_objects` so the two can be compared. -/
def spec_merged_field (data_objects : List (Option DataObject)) (field : String) : String :=
  String.intercalate "\n" (merge_field_values data_objects field)

/-! ### Batch aggregation in `supervisor_tools_node` (src/graph.py lines 209-251) -/

/-- Outcome of one `execute_research` task gathered with
`return_exceptions=True`: `none` models a raised exception, `some (data?,
domains)` a normal result `(result["existing_data"], result["used_domains"])`. -/
abbrev ResearchOutcome := Option (Option DataObject × List String)

/-- The non-exception results, in order (the `isinstance(..., Exception)`
filter loop of `supervisor_tools_node`). -/
def batch_successes (rs : List ResearchOutcome) : List (Option DataObject × List String) :=
  rs.filterMap id

/-- The aggregation step of `supervisor_tools_node` after the parallel batch
(lines 220-251): collect successful results, extend `used_domains` with each
success's domains, merge all data objects via `merge_data_objects`, and
deduplicate `used_domains` (`list(set(used_domains))`, here `List.dedup`;
only membership and multiplicity of the result are relied upon).  Note the
merged accumulator depends only on the successful results and the research
type's initial structure — the pre-batch `existing_data` does not occur. -/
def supervisor_batch_merge (used_domains : List String) (initial : DataObject)
    (rs : List ResearchOutcome) : DataObject × List String :=
  let successes := batch_successes rs
  let all_data_objects := successes.map Prod.fst
  let extended := used_domains ++ (successes.map Prod.snd).flatten
  (merge_data_objects all_data_objects initial, extended.dedup)

/-! ### Supervisor turn structure (src/graph.py lines 82-272) -/

/-- A tool call in the supervisor's decision message.  `extra` stands for a
research-type-specific additional tool, which the dispatch loop of
`supervisor_tools_node` matches with no branch. -/
inductive ToolCall
  | finish
  | think (reflection : String)
  | research (question : String)
  | extra (toolName : String)
deriving DecidableEq, Repr

/-- A conversation-history entry (`AIMessage` / `ToolMessage`): tool name and
content. -/
structure ToolMsg where
  name : String
  content : String
deriving DecidableEq, Repr

/-- Does the call list contain `FinishResearchTool`?  The dispatch loop
returns `Command(goto="structure_output")` at the first such call. -/
def has_finish_call (calls : List ToolCall) : Bool :=
  calls.any fun c => match c with
    | ToolCall.finish => true
    | _ => false

/-- `supervisor_tools_node` routes straight to `structure_output` when the
decision message has no tool calls, when
`iteration_count >= MAX_TOOL_CALL_ITERATIONS`, or when a
`FinishResearchTool` call is encountered. -/
def routes_to_structure (iteration_count maxIter : Nat) (calls : List ToolCall) : Bool :=
  calls.isEmpty || decide (maxIter ≤ iteration_count) || has_finish_call calls

/-- The dispatch loop of `supervisor_tools_node` (lines 169-189): walk the
tool calls in order; a `FinishResearchTool` call returns immediately
(`none`); otherwise collect the `think_tool` reflections and the
`ResearchEventsTool` questions, each in order. -/
def collect_calls (calls : List ToolCall) : Option (List String × List String) :=
  match calls with
  | [] => some ([], [])
  | ToolCall.finish :: _ => none
  | ToolCall.think r :: rest =>
    (collect_calls rest).map fun p => (r :: p.1, p.2)
  | ToolCall.research q :: rest =>
    (collect_calls rest).map fun p => (p.1, q :: p.2)
  | ToolCall.extra _ :: rest => collect_calls rest

/-- The `ToolMessage` recorded for a `think_tool` call (line 179-185). -/
def think_message (reflection : String) : ToolMsg :=
  ToolMsg.mk "think_tool" reflection

/-- The `ToolMessage` recorded for one successful research query (line 236-242). -/
def research_message : ToolMsg :=
  ToolMsg.mk "ResearchEventsTool" "Called ResearchEventsTool and returned research data"

/-- Routing decision of `supervisor_tools_node` together with the
`conversation_history` update it carries: `toStructure` commands carry no
update at all. -/
inductive ToolsRoute
  | toStructure
  | toSupervisor (msgs : List ToolMsg)
deriving DecidableEq, Repr

/-- The conversation-history behaviour of `supervisor_tools_node`: no tool
calls or an exceeded iteration cap routes to structuring with no update; a
`FinishResearchTool` call likewise (the think messages collected before it
are discarded with the whole update).  Otherwise, when at least one
`ResearchEventsTool` call is present, `all_tool_messages` is reset (line 222)
and only one message per successful research query survives; with no research
call the think messages are returned. -/
def supervisor_tools_messages (iteration_count maxIter : Nat) (calls : List ToolCall)
    (outcomes : List ResearchOutcome) : ToolsRoute :=
  if calls.isEmpty || decide (maxIter ≤ iteration_count) then ToolsRoute.toStructure
  else
    match collect_calls calls with
    | none => ToolsRoute.toStructure
    | some (thinks, questions) =>
      if questions.isEmpty then ToolsRoute.toSupervisor (thinks.map think_message)
      else ToolsRoute.toSupervisor ((batch_successes outcomes).map fun _ => research_message)

/-- The slice of `SupervisorState` that claims C3/C7 are about. -/
structure SupState where
  conversation_history : List ToolMsg
  iteration_count : Nat
deriving DecidableEq, Repr

/-- `override_reducer` from src/state.py for a plain (non-override) update
value: `operator.add`, i.e. list append. -/
def override_reducer (current newValue : List ToolMsg) : List ToolMsg :=
  current ++ newValue

/-- `supervisor_node` (lines 125-134): appends the decision `AIMessage` to
the history and increments `iteration_count` by one. -/
def supervisor_node_update (s : SupState) (decision : ToolMsg) : SupState :=
  SupState.mk (override_reducer s.conversation_history [decision]) (s.iteration_count + 1)

/-- The state update performed by `supervisor_tools_node` on the C3/C7 state
slice: a `toStructure` route carries no update, a `toSupervisor` route
appends its tool messages; `iteration_count` is never touched here. -/
def supervisor_tools_update (maxIter : Nat) (s : SupState) (calls : List ToolCall)
    (outcomes : List ResearchOutcome) : SupState :=
  match supervisor_tools_messages s.iteration_count maxIter calls outcomes with
  | ToolsRoute.toStructure => s
  | ToolsRoute.toSupervisor msgs =>
    SupState.mk (override_reducer s.conversation_history msgs) s.iteration_count

/-- One full supervisor turn: `supervisor_node` followed by
`supervisor_tools_node`. -/
def supervisor_turn (maxIter : Nat) (s : SupState) (decision : ToolMsg)
    (calls : List ToolCall) (outcomes : List ResearchOutcome) : SupState :=
  supervisor_tools_update maxIter (supervisor_node_update s decision) calls outcomes

/-- How many `ToolMessage`s the tools node of a turn appends, computed
directly from the decision: zero on any route to structuring, one per think
reflection when no research call is present, one per successful research
query otherwise. -/
def expected_tool_msg_count (iteration_count maxIter : Nat) (calls : List ToolCall)
    (outcomes : List ResearchOutcome) : Nat :=
  if calls.isEmpty || decide (maxIter ≤ iteration_count) then 0
  else
    match collect_calls calls with
    | none => 0
    | some (thinks, questions) =>
      if questions.isEmpty then thinks.length else (batch_successes outcomes).length

/-- Number of supervisor turns executed from a state whose iteration count is
`count`, for the decision stream `decider` (the call list the LLM emits at
each count).  The turn increments the count, then the tools node either
routes back to `supervisor` or to `structure_output`; research outcomes do
not affect routing. -/
def supervisor_turns_from (maxIter : Nat) (decider : Nat → List ToolCall) (count : Nat) :
    Nat :=
  if h : routes_to_structure (count + 1) maxIter (decider count) = false then
    1 + supervisor_turns_from maxIter decider (count + 1)
  else 1
termination_by maxIter - count
decreasing_by
  simp only [routes_to_structure, Bool.or_eq_false_iff, decide_eq_false_iff_not,
    not_le] at h
  omega

/-! ### Query executor (src/research_events/research_events_graph.py) -/

/-- Oracles of one query-executor run over accumulator type `α`:
`extract_domain` is `URLService.extract_domain` (src/services/url_service.py
is not part of the source tree; per the data model a URL's normalized domain
string), and `crawl_merge acc url` is the composition of the crawler subgraph
on `url` with the chunk-merge pipeline into `acc` (nodes `crawl_url` and
`merge_events_and_update`).  Either step may raise — a crawl error, or a
reconciliation failure propagating out of `combine_new_and_original_data` —
and nothing inside the executor catches it, so `crawl_merge` is fallible. -/
structure ExecutorEnv (α : Type) where
  extract_domain : String → String
  crawl_merge : α → String → Except String α

/-- The crawl loop of the research-events graph
(`should_process_url_router` → `crawl_url` → `merge_events_and_update` →
router …): inspect the head URL; if its domain is already in `used_domains`
drop it with no crawl; otherwise crawl and merge — a raised exception aborts
the whole run, losing its accumulated state and `used_domains` — then
`URLService.update_url_list` — Modelled from the spec: src/services/url_service.py
is not in the source tree; spec §4.2 step 3 says "record the crawled domain
into `used_domains`, drop the head" — and continue until no URL remains.
Returns the URLs on which a crawl was issued, in order (the URL whose
crawl/merge raised included — its fetch was attempted), together with either
the exception or the final accumulator and `used_domains`. -/
def executorLoop {α : Type} (env : ExecutorEnv α) :
    List String → α → List String → List String × Except String (α × List String)
  | [], acc, used => ([], Except.ok (acc, used))
  | url :: rest, acc, used =>
    if env.extract_domain url ∈ used then
      executorLoop env rest acc used
    else
      match env.crawl_merge acc url with
      | Except.error e => ([url], Except.error e)
      | Except.ok acc2 =>
        let r := executorLoop env rest acc2 (used ++ [env.extract_domain url])
        (url :: r.1, r.2)

/-- `SearchResult` from src/search_providers/base.py (the optional float
`score` is not consulted by the orchestration code and is omitted). -/
structure SearchCandidate where
  url : String
  title : String
  content : String
deriving DecidableEq, Repr

/-- One query-executor run (`research_events_app`): `url_finder` raises
`ValueError` when the research question is empty; otherwise it calls the
search provider with `max_results=6` excluding `used_domains`, returns the
input unchanged when no URL comes back, and otherwise runs the crawl loop on
the URLs the selection LLM (`select_best`, the `BestUrls` call) picks.
Returns the crawled-URL trace together with the run's outcome. -/
def query_executor_run {α : Type} (env : ExecutorEnv α)
    (search : String → Nat → List String → List SearchCandidate)
    (select_best : List SearchCandidate → List String)
    (question : String) (acc : α) (used : List String) :
    List String × Except String (α × List String) :=
  if question = "" then ([], Except.error "research_question is required")
  else
    let results := search question 6 used
    let urls := results.map SearchCandidate.url
    if urls.isEmpty then ([], Except.ok (acc, used))
    else executorLoop env (select_best results) acc used

/-- The crawl trace of one parallel batch: each sub-question's URL list is
run by `executorLoop` seeded with the *same* snapshot `(acc, used)` — exactly
how `supervisor_tools_node` builds every `execute_research` task — and the
issued crawls are concatenated, those of runs that later raised included
(their fetches happened even though the run's result is discarded). -/
def parallel_batch_crawls {α : Type} (env : ExecutorEnv α) (lists : List (List String))
    (acc : α) (used : List String) : List String :=
  (lists.map fun urls => (executorLoop env urls acc used).1).flatten

/-- The `used_domains` list a *successful* run hands back to the fan-out
barrier; a failed run yields `none` and is skipped by the
`isinstance(..., Exception)` check (src/graph.py lines 227-229). -/
def successful_used {α : Type} (env : ExecutorEnv α) (acc : α) (used : List String)
    (urls : List String) : Option (List String) :=
  match (executorLoop env urls acc used).2 with
  | Except.ok p => some p.2
  | Except.error _ => none

/-- The `used_domains` value the supervisor carries into the next turn: the
pre-batch list extended by each *successful* executor's returned list —
failed runs contribute nothing (src/graph.py lines 227-234) — then
deduplicated (line 251). -/
def batch_out_used {α : Type} (env : ExecutorEnv α) (lists : List (List String))
    (acc : α) (used : List String) : List String :=
  (used ++ (lists.filterMap (successful_used env acc used)).flatten).dedup

/-- A concrete executor environment for closed instances: the URL is its own
domain and crawling always succeeds without changing the accumulator. -/
def idEnv : ExecutorEnv Nat :=
  ExecutorEnv.mk (fun u => u) (fun a _ => Except.ok a)

/-- A concrete executor environment whose crawl/merge step always raises
(after the fetch was issued). -/
def failEnv : ExecutorEnv Nat :=
  ExecutorEnv.mk (fun u => u) (fun _ _ => Except.error "crawl failed")

/-! ### Chunk merge pipeline (src/research_events/merge_events/merge_events_graph.py) -/

/-- `is_error` on `Except`. -/
def is_error {ε α : Type} : Except ε α → Bool
  | Except.error _ => true
  | Except.ok _ => false

/-- The `"No data"` placeholder substituted for an empty side in
`combine_new_and_original_data`. -/
def display_or_placeholder (t : String) : String :=
  if t = "" then "No data" else t

/-- The per-field merge fan-out of `combine_new_and_original_data`
(lines 241-271): fields whose existing and new stripped texts are both empty
are skipped; every other field issues one LLM merge call
(`MERGE_EVENTS_TEMPLATE` on the texts or their `"No data"` placeholders),
and the calls are joined with `asyncio.gather`, whose await re-raises when
any call raised — embedded as `Except` sequencing (only the identity of the
propagated error differs from first-exception order). -/
def merge_fields (merger : String → String → Except String String)
    (existing new_data : DataObject) : List String → Except String (List (String × String))
  | [] => Except.ok []
  | f :: fs =>
    let et := py_strip (get_attr existing f)
    let nt := py_strip (get_attr new_data f)
    if et = "" ∧ nt = "" then merge_fields merger existing new_data fs
    else
      match merger (display_or_placeholder et) (display_or_placeholder nt) with
      | Except.error e => Except.error e
      | Except.ok v =>
        match merge_fields merger existing new_data fs with
        | Except.error e => Except.error e
        | Except.ok rest => Except.ok ((f, v) :: rest)

/-- `combine_new_and_original_data` (lines 191-281): a falsy (absent) existing
value passes the new data through; otherwise the new data defaults to the
existing one, the early return fires when no field of the new data has
non-blank text, and otherwise every field is reconciled in parallel
(`merge_fields`) and the final object keeps the existing value for every
skipped field.  (`ensure_categories_with_events` is an identity here: in this
embedding every data object already carries all of its model's fields.) -/
def combine_new_and_original_data (merger : String → String → Except String String)
    (existing? new? : Option DataObject) : Except String (Option DataObject) :=
  match existing? with
  | none =>
    match new? with
    | none => Except.ok none
    | some nd => Except.ok (some nd)
  | some existing =>
    let new_data := new?.getD existing
    let field_names := existing.map Prod.fst
    if field_names.all (fun f => py_strip (get_attr new_data f) = "") then
      Except.ok (some existing)
    else
      match merge_fields merger existing new_data field_names with
      | Except.error e => Except.error e
      | Except.ok merged =>
        Except.ok (some (field_names.map fun f =>
          (f, (List.lookup f merged).getD (get_attr existing f))))

/-- Modelled from the spec: `EventService.merge_categorized_events`
(src/services/event_service.py is not in the source tree).  Spec §4.3 step 5:
"concatenate per-category text across all CategorizedChunks (category-wise,
newline-joined, skipping empties)". -/
def merge_categorized_events (results : List DataObject) : DataObject :=
  bioFields.map fun f =>
    (f, String.intercalate "\n" ((results.map fun r => get_attr r f).filter fun v => v ≠ ""))

/-- Oracles of the chunk-merge pipeline: `chunk_text_by_tokens` is the
token-based chunker (src/url_crawler/utils.py, not in the source tree),
`max_chunks` is `Configuration.max_chunks`, `contains_biographic_event` is
the per-chunk relevance verdict of the chunk graph, `extract_chunk` is the
extraction LLM call (`none` models an `IrrelevantChunk` / unparseable answer,
which the code replaces by the all-empty categorization), and `merge_llm` is
the per-field reconciliation call. -/
structure MergeEnv where
  chunk_text_by_tokens : String → List String
  max_chunks : Nat
  contains_biographic_event : String → Bool
  extract_chunk : String → Option DataObject
  merge_llm : String → String → Except String String

/-- The chunk-merge pipeline `merge_events_app` (the `ChunkMergePipeline`):
`split_events` ends immediately on blank text, else chunks and keeps the
first 20; `filter_chunks` ends when no chunk exists or none is classified
relevant (after truncating to `max_chunks`); otherwise every (truncated)
chunk is extracted and categorized — a non-`RelevantEventsCategorized` answer
yields the all-empty categorization — the chunk results are folded by
`merge_categorized_events`, and `combine_new_and_original_data` reconciles
the fold with the existing data.  Every early end leaves `existing_data`
untouched in the graph state. -/
def merge_pipeline (env : MergeEnv) (existing? : Option DataObject) (extracted_data : String) :
    Except String (Option DataObject) :=
  if py_strip extracted_data = "" then Except.ok existing?
  else if ((env.chunk_text_by_tokens extracted_data).take 20).isEmpty then
    Except.ok existing?
  else if ((((env.chunk_text_by_tokens extracted_data).take 20).take env.max_chunks).filter
      env.contains_biographic_event).isEmpty then
    Except.ok existing?
  else
    combine_new_and_original_data env.merge_llm existing?
      (some (merge_categorized_events
        ((((env.chunk_text_by_tokens extracted_data).take 20).take env.max_chunks).map
          fun c => (env.extract_chunk c).getD bioInitial)))

/-! ### Structuring stage (src/graph.py lines 275-306) -/

/-- The `structure_output` node: `if not existing_data:` yields
`{"structured_output": None}`; every research type's accumulator is a
Pydantic model instance, which is truthy in Python regardless of its field
values, so the falsy case is exactly the absent (`None`) accumulator.  A
present accumulator is delegated to
`research_type.structure_output(existing_data, config)` (the `strategy`
oracle). -/
def structure_output_node {σ : Type} (strategy : DataObject → σ)
    (existing? : Option DataObject) : Option σ :=
  match existing? with
  | none => none
  | some d => some (strategy d)

/-! ### Concrete inputs for counterexamples and witnesses -/

/-- A pre-batch accumulator with accumulated career text. -/
def c1_pre : DataObject :=
  [("early", ""), ("personal", ""), ("career", "- 1815: Ada Lovelace was born."), ("legacy", "")]

/-- The decision `AIMessage` of a sample turn. -/
def ai_decision : ToolMsg := ToolMsg.mk "assistant" "tool calls"

/-- Two successful parallel results contributing `"a"` and `"b"` to the
`career` field. -/
def c4_objs : List (Option DataObject) := [some [("career", "a")], some [("career", "b")]]

/-- A concrete chunk-merge environment: one chunk per text, nothing relevant,
extraction never fires, reconciliation always succeeds. -/
def c5_env : MergeEnv :=
  MergeEnv.mk (fun s => [s]) 20 (fun _ => false) (fun _ => none) (fun _ _ => Except.ok "")

/-- Existing data whose `career` field holds text (for the C6 failure case). -/
def c6_existing : DataObject := [("early", ""), ("career", "x")]

/-- New extracted data with a non-empty `career` field. -/
def c6_new : DataObject := [("early", ""), ("career", "y")]

/-- A reconciliation call that always fails. -/
def c6_failMerger : String → String → Except String String := fun _ _ => Except.error "boom"

/-- A reconciliation call that always succeeds with `"m"`. -/
def c6_okMerger : String → String → Except String String := fun _ _ => Except.ok "m"

/-! ## Helper lemmas -/

/-- Looking up `f` in the association list `fields.map (fun g => (g, v g))`
gives `v f` whenever `f ∈ fields` (the first matching pair carries `v f`). -/
theorem lookup_map_self (v : String → String) :
    ∀ (fields : List String) (f : String), f ∈ fields →
      List.lookup f (fields.map fun g => (g, v g)) = some (v f) := by
  intro fields
  induction fields with
  | nil => exact fun f hf => absurd hf (List.not_mem_nil f)
  | cons g gs ih =>
    intro f hf
    by_cases h : f = g
    · subst h
      simp [List.lookup]
    · rcases List.mem_cons.mp hf with h1 | h1
      · exact absurd h1 h
      · simpa [List.lookup, beq_eq_false_iff_ne.mpr h] using ih f h1

/-- `get_attr` on an association list built by tagging each field with a
value function returns that function's value. -/
theorem get_attr_map_self (v : String → String) (fields : List String) (f : String)
    (hf : f ∈ fields) :
    get_attr (fields.map fun g => (g, v g)) f = v f := by
  unfold get_attr
  rw [lookup_map_self v fields f hf]
  rfl

/-- Invariants of the executor crawl loop: on a successful run the returned
`used_domains` is the seed extended by the crawled domains in order; the
crawled domains (including a final failing crawl's) are pairwise distinct;
and no domain of the seed is ever crawled. -/
theorem executorLoop_spec {α : Type} (env : ExecutorEnv α) :
    ∀ (urls : List String) (acc : α) (used : List String),
      (∀ (a : α) (u2 : List String),
        (executorLoop env urls acc used).2 = Except.ok (a, u2) →
        u2 = used ++ ((executorLoop env urls acc used).1.map env.extract_domain)) ∧
      ((executorLoop env urls acc used).1.map env.extract_domain).Nodup ∧
      ∀ d ∈ used, d ∉ (executorLoop env urls acc used).1.map env.extract_domain := by
  intro urls
  induction urls with
  | nil =>
    intro acc used
    refine ⟨?_, by simp [executorLoop], by simp [executorLoop]⟩
    intro a u2 h
    simp only [executorLoop, Except.ok.injEq, Prod.mk.injEq] at h
    simp [executorLoop, h.2]
  | cons url rest ih =>
    intro acc used
    by_cases hmem : env.extract_domain url ∈ used
    · simpa [executorLoop, hmem] using ih acc used
    · simp only [executorLoop, if_neg hmem]
      cases hcm : env.crawl_merge acc url with
      | error e =>
        refine ⟨?_, by simp, ?_⟩
        · intro a u2 h
          cases h
        · intro d hd
          simp only [List.map_cons, List.map_nil, List.mem_singleton]
          exact fun hde => hmem (hde ▸ hd)
      | ok acc2 =>
        obtain ⟨h1, h2, h3⟩ := ih acc2 (used ++ [env.extract_domain url])
        refine ⟨?_, ?_, ?_⟩
        · intro a u2 h
          have := h1 a u2 h
          simpa [List.append_assoc] using this
        · exact List.nodup_cons.mpr ⟨h3 (env.extract_domain url) (by simp), h2⟩
        · intro d hd
          simp only [List.map_cons, List.mem_cons, not_or]
          exact ⟨fun hde => hmem (hde ▸ hd), h3 d (by simp [hd])⟩

/-- When a selected field's reconciliation call fails, `merge_fields` fails. -/
theorem merge_fields_error (merger : String → String → Except String String)
    (existing new_data : DataObject) :
    ∀ (fs : List String),
      (∃ f ∈ fs, ¬(py_strip (get_attr existing f) = "" ∧ py_strip (get_attr new_data f) = "") ∧
        is_error (merger (display_or_placeholder (py_strip (get_attr existing f)))
          (display_or_placeholder (py_strip (get_attr new_data f)))) = true) →
      is_error (merge_fields merger existing new_data fs) = true := by
  intro fs
  induction fs with
  | nil => rintro ⟨f, hf, -⟩; exact absurd hf (List.not_mem_nil f)
  | cons g gs ih =>
    rintro ⟨f, hf, hsel, hfail⟩
    simp only [merge_fields]
    rcases List.mem_cons.mp hf with rfl | htail
    · rw [if_neg hsel]
      cases hm : merger (display_or_placeholder (py_strip (get_attr existing f)))
          (display_or_placeholder (py_strip (get_attr new_data f))) with
      | error e => simp [is_error]
      | ok v => rw [hm] at hfail; simp [is_error] at hfail
    · have hrec := ih ⟨f, htail, hsel, hfail⟩
      by_cases hskip : py_strip (get_attr existing g) = "" ∧ py_strip (get_attr new_data g) = ""
      · rw [if_pos hskip]; exact hrec
      · rw [if_neg hskip]
        cases hm : merger (display_or_placeholder (py_strip (get_attr existing g)))
            (display_or_placeholder (py_strip (get_attr new_data g))) with
        | error e => simp [is_error]
        | ok v =>
          cases hr : merge_fields merger existing new_data gs with
          | error e => simp [is_error]
          | ok rest => rw [hr] at hrec; simp [is_error] at hrec

/-- A field skipped by `merge_fields` (both sides blank) never occurs in the
merged association list. -/
theorem merge_fields_skip_lookup (merger : String → String → Except String String)
    (existing new_data : DataObject) (f : String)
    (he : py_strip (get_attr existing f) = "") (hn : py_strip (get_attr new_data f) = "") :
    ∀ (fs : List String) (merged : List (String × String)),
      merge_fields merger existing new_data fs = Except.ok merged →
      List.lookup f merged = none := by
  intro fs
  induction fs with
  | nil =>
    intro merged hm
    simp only [merge_fields] at hm
    cases hm
    rfl
  | cons g gs ih =>
    intro merged hm
    simp only [merge_fields] at hm
    by_cases hskip : py_strip (get_attr existing g) = "" ∧ py_strip (get_attr new_data g) = ""
    · rw [if_pos hskip] at hm; exact ih merged hm
    · rw [if_neg hskip] at hm
      cases hmg : merger (display_or_placeholder (py_strip (get_attr existing g)))
          (display_or_placeholder (py_strip (get_attr new_data g))) with
      | error e => rw [hmg] at hm; cases hm
      | ok v =>
        rw [hmg] at hm
        cases hr : merge_fields merger existing new_data gs with
        | error e => rw [hr] at hm; cases hm
        | ok rest =>
          rw [hr] at hm
          cases hm
          have hfg : f ≠ g := by
            rintro rfl
            exact hskip ⟨he, hn⟩
          simpa [List.lookup, beq_eq_false_iff_ne.mpr hfg] using ih rest hr

/-- The supervisor-loop turn count from `count` is bounded by
`max (maxIter - count) 1`. -/
theorem supervisor_turns_from_le (maxIter : Nat) (decider : Nat → List ToolCall) :
    ∀ (n count : Nat), maxIter - count ≤ n →
      supervisor_turns_from maxIter decider count ≤ max (maxIter - count) 1 := by
  intro n
  induction n with
  | zero =>
    intro count hc
    rw [supervisor_turns_from]
    split
    · rename_i h
      simp only [routes_to_structure, Bool.or_eq_false_iff, decide_eq_false_iff_not,
        not_le] at h
      omega
    · exact le_max_right _ _
  | succ n ih =>
    intro count hc
    rw [supervisor_turns_from]
    split
    · rename_i h
      have hlt : count + 1 < maxIter := by
        simp only [routes_to_structure, Bool.or_eq_false_iff, decide_eq_false_iff_not,
          not_le] at h
        omega
      have hrec := ih (count + 1) (by omega)
      have : max (maxIter - (count + 1)) 1 = maxIter - (count + 1) := by omega
      rw [this] at hrec
      omega
    · exact le_max_right _ _

/-! ## Claim C1 -/

/-- Claim C1 (code bug, evaluated at the failing input): dispatch a batch of
one research sub-question whose executor raises, starting from the non-empty
accumulator `c1_pre`.  `supervisor_tools_node` then computes
`merge_data_objects([], research_type)`, which is the research type's
*initial* all-empty structure — not the pre-batch accumulator — so the turn
ends with the accumulator reset instead of unchanged, contrary to the spec
and to the code's own "Fall back to existing data" comment. -/
theorem c1_all_failures_reset_accumulator :
    (supervisor_batch_merge [] bioInitial [none]).1 = bioInitial ∧
    (supervisor_batch_merge [] bioInitial [none]).1 ≠ c1_pre := by
  constructor
  · rfl
  · decide

/-! ## Claim C3 -/

/-- Claim C3, as stated, fails at `max_iterations = 0`: the supervisor node
always runs once before the cap is consulted, so the loop performs one turn,
not at most zero. -/
theorem c3_counterexample :
    ¬ supervisor_turns_from 0 (fun _ => [ToolCall.research "q"]) 0 ≤ 0 := by
  rw [supervisor_turns_from]
  norm_num [routes_to_structure]

/-- Claim C3 (amended): for `max_iterations = N` the supervisor loop performs
at most `max N 1` turns before routing to structuring, for every decision
stream — at most `N` turns whenever `N ≥ 1`, and exactly one turn when
`N = 0` because the supervisor always executes once before the cap check. -/
theorem c3_iteration_bound (maxIter : Nat) (decider : Nat → List ToolCall) :
    supervisor_turns_from maxIter decider 0 ≤ max maxIter 1 := by
  simpa using supervisor_turns_from_le maxIter decider maxIter 0 (by omega)

/-! ## Claim C4 -/

/-- Claim C4, as stated, fails on the separator: `merge_data_objects` joins
the collected field values with a blank line (`"\n\n"`), not with a single
newline as "newline-separated join" prescribes; with contributions `"a"` and
`"b"` the code produces `"a\n\nb"` whereas the spec's join is `"a\nb"`. -/
theorem c4_counterexample :
    get_attr (merge_data_objects c4_objs bioInitial) "career" ≠
      spec_merged_field c4_objs "career" ∧
    get_attr (merge_data_objects c4_objs bioInitial) "career" = "a\n\nb" ∧
    spec_merged_field c4_objs "career" = "a\nb" := by
  refine ⟨?_, ?_, ?_⟩ <;> decide

/-- Claim C4 (amended): for every non-empty list of successful results and
every field of the first result's model, the batch-merged value for that
field is the `"\n\n"`-separated (blank-line-separated, not single-newline)
join of the stripped non-empty values contributed in order (empty when none
contribute); and the batch's used-domain output contains each domain of the
input list and of every successful result's list exactly once. -/
theorem c4_batch_merge (fst : DataObject) (rest : List (Option DataObject))
    (initial : DataObject) (f : String) (hf : f ∈ fst.map Prod.fst)
    (used : List String) (initial2 : DataObject) (rs : List ResearchOutcome) (d : String) :
    get_attr (merge_data_objects (some fst :: rest) initial) f =
      String.intercalate "\n\n" (merge_field_values (some fst :: rest) f) ∧
    (supervisor_batch_merge used initial2 rs).2.Nodup ∧
    (d ∈ (supervisor_batch_merge used initial2 rs).2 ↔
      d ∈ used ∨ ∃ s ∈ batch_successes rs, d ∈ s.2) := by
  refine ⟨?_, List.nodup_dedup _, ?_⟩
  · unfold merge_data_objects get_attr
    rw [lookup_map_self
      (fun field =>
        if (merge_field_values (some fst :: rest) field).isEmpty then ""
        else String.intercalate "\n\n" (merge_field_values (some fst :: rest) field))
      (fst.map Prod.fst) f hf]
    simp only [Option.getD_some]
    split
    · rename_i hempty
      rw [List.isEmpty_iff.mp hempty]
      rfl
    · rfl
  · simp only [supervisor_batch_merge, List.mem_dedup, List.mem_append, List.mem_flatten,
      List.mem_map]
    constructor
    · rintro (h | ⟨l, ⟨s, hs, rfl⟩, hd⟩)
      · exact Or.inl h
      · exact Or.inr ⟨s, hs, hd⟩
    · rintro (h | ⟨s, hs, hd⟩)
      · exact Or.inl h
      · exact Or.inr ⟨s.2, ⟨s, hs, rfl⟩, hd⟩

/-- Witness for `c4_batch_merge` at a concrete batch: one successful result
contributing `"x"` to `career` and domain `"d1"`, pre-batch domain `"d0"`. -/
theorem c4_batch_merge_witness :
    ("career" ∈ ([("career", "x")] : DataObject).map Prod.fst) ∧
    (get_attr (merge_data_objects [some [("career", "x")]] bioInitial) "career" =
      String.intercalate "\n\n" (merge_field_values [some [("career", "x")]] "career") ∧
    (supervisor_batch_merge ["d0"] bioInitial [some (some [("career", "x")], ["d1"])]).2.Nodup ∧
    ("d1" ∈ (supervisor_batch_merge ["d0"] bioInitial
        [some (some [("career", "x")], ["d1"])]).2 ↔
      "d1" ∈ ["d0"] ∨
        ∃ s ∈ batch_successes [some (some [("career", "x")], ["d1"])], "d1" ∈ s.2)) :=
  ⟨by decide,
    c4_batch_merge [("career", "x")] [] bioInitial "career" (by decide) ["d0"] bioInitial
      [some (some [("career", "x")], ["d1"])] "d1"⟩

/-! ## Claim C8 -/

/-- Claim C8, as stated, fails for a present-but-empty accumulator: an
accumulator object whose categories are all empty is truthy in Python, so
`structure_output` does not take the `None` branch but delegates to the
research type's structuring, whose result (here a strategy producing `0`) is
not null. -/
theorem c8_counterexample :
    structure_output_node (fun _ => (0 : Nat)) (some bioInitial) ≠ none := by
  decide

/-- Claim C8 (amended): the structuring stage yields a null structured output
exactly when the accumulator is missing/unset (`None`); a present accumulator
— even one whose categories are all empty — is delegated to the domain
strategy instead. -/
theorem c8_null_iff_missing {σ : Type} (strategy : DataObject → σ)
    (existing? : Option DataObject) :
    structure_output_node strategy existing? = none ↔ existing? = none := by
  cases existing? <;> simp [structure_output_node]

/-! ## Claim C2 -/

/-- Claim C2, as stated, fails in two ways.  Within one batch: two parallel
executors are seeded with the *same* `used_domains` snapshot, so both crawl
`"site.com"` — the domain is fetched a second time after it was first
crawled, and the batch crawl trace has a repeated domain.  Across batches: a
run that crawls `"site.com"` and then raises is skipped at the fan-out
barrier, the domain is absent from the post-batch union, and the next
batch's executor crawls it again. -/
theorem c2_counterexample :
    parallel_batch_crawls idEnv [["site.com"], ["site.com"]] 0 [] =
      ["site.com", "site.com"] ∧
    ¬ ((parallel_batch_crawls idEnv [["site.com"], ["site.com"]] 0 []).map
        idEnv.extract_domain).Nodup ∧
    parallel_batch_crawls failEnv [["site.com"]] 0 [] = ["site.com"] ∧
    batch_out_used failEnv [["site.com"]] 0 [] = [] ∧
    (executorLoop failEnv ["site.com"] 0
      (batch_out_used failEnv [["site.com"]] 0 [])).1 = ["site.com"] := by
  exact ⟨rfl, by decide, rfl, rfl, rfl⟩

/-- Claim C2 (amended): a domain crawled during a batch by an executor run
that *completed successfully* is contained in the batch's unioned
`used_domains` output, and no executor run seeded with that output (i.e. any
run of a *subsequent* batch) ever crawls it again; within one executor run
no domain is crawled twice and no seeded domain is crawled
(`executorLoop_spec`).  But two parallel executors of the *same* batch may
both crawl the domain, and a run that crawls a domain and then raises is
skipped at the barrier, so its domains escape the union and may be
re-crawled later — both shown by `c2_counterexample`. -/
theorem c2_no_recrawl_across_batches {α : Type} (env : ExecutorEnv α)
    (lists : List (List String)) (acc : α) (used : List String) (d : String)
    (urls : List String) (hmem : urls ∈ lists) (a : α) (u2 : List String)
    (hok : (executorLoop env urls acc used).2 = Except.ok (a, u2))
    (hd : d ∈ (executorLoop env urls acc used).1.map env.extract_domain) :
    d ∈ batch_out_used env lists acc used ∧
    ∀ (urls2 : List String) (acc2 : α),
      d ∉ ((executorLoop env urls2 acc2 (batch_out_used env lists acc used)).1.map
        env.extract_domain) := by
  have hu2 : u2 = used ++ ((executorLoop env urls acc used).1.map env.extract_domain) :=
    (executorLoop_spec env urls acc used).1 a u2 hok
  have hdin : d ∈ u2 := by
    rw [hu2]
    exact List.mem_append_right _ hd
  have hout : d ∈ batch_out_used env lists acc used := by
    simp only [batch_out_used, List.mem_dedup, List.mem_append, List.mem_flatten]
    refine Or.inr ⟨u2, ?_, hdin⟩
    exact List.mem_filterMap.mpr ⟨urls, hmem, by simp [successful_used, hok]⟩
  exact ⟨hout, fun urls2 acc2 =>
    (executorLoop_spec env urls2 acc2 (batch_out_used env lists acc used)).2.2 d hout⟩

/-- Witness for `c2_no_recrawl_across_batches`: one batch whose single run
successfully crawls `"a"` from an empty seed; the next run seeded with the
batch output never crawls `"a"` again. -/
theorem c2_no_recrawl_witness :
    (executorLoop idEnv ["a"] 0 []).2 = Except.ok (0, ["a"]) ∧
    "a" ∈ (executorLoop idEnv ["a"] 0 []).1.map idEnv.extract_domain ∧
    "a" ∈ batch_out_used idEnv [["a"]] 0 [] ∧
    "a" ∉ ((executorLoop idEnv ["a"] 0 (batch_out_used idEnv [["a"]] 0 [])).1.map
      idEnv.extract_domain) := by
  refine ⟨rfl, by decide, ?_, ?_⟩
  · exact (c2_no_recrawl_across_batches idEnv [["a"]] 0 [] "a" ["a"] (by decide) 0 ["a"]
      rfl (by decide)).1
  · exact (c2_no_recrawl_across_batches idEnv [["a"]] 0 [] "a" ["a"] (by decide) 0 ["a"]
      rfl (by decide)).2 ["a"] 0

/-! ## Claim C5 -/

/-- Claim C5: the chunk-merge pipeline is a no-op returning the existing
accumulator unchanged whenever the extracted text is empty or blank, and
whenever no chunk survives the relevance filter — the filter the pipeline
runs, i.e. over the chunk list truncated to the first 20 and then to
`max_chunks` (merge_events_graph.py lines 84 and 105). -/
theorem c5_noop_cases (env : MergeEnv) (existing? : Option DataObject)
    (extracted_data : String) :
    (py_strip extracted_data = "" →
      merge_pipeline env existing? extracted_data = Except.ok existing?) ∧
    ((((env.chunk_text_by_tokens extracted_data).take 20).take env.max_chunks).filter
        env.contains_biographic_event = [] →
      merge_pipeline env existing? extracted_data = Except.ok existing?) := by
  constructor
  · intro h
    simp [merge_pipeline, h]
  · intro hfilter
    unfold merge_pipeline
    split_ifs with h1 h2 h3
    · rfl
    · rfl
    · rfl
    · exact absurd (by rw [hfilter]; rfl) h3

/-- Witness for `c5_noop_cases`: blank text is a no-op, and a crawled text
none of whose considered chunks survives the relevance filter is a no-op. -/
theorem c5_noop_witness :
    py_strip "  " = "" ∧
    merge_pipeline c5_env (some bioInitial) "  " = Except.ok (some bioInitial) ∧
    ((((c5_env.chunk_text_by_tokens "some crawled text").take 20).take
        c5_env.max_chunks).filter c5_env.contains_biographic_event = []) ∧
    merge_pipeline c5_env (some bioInitial) "some crawled text" =
      Except.ok (some bioInitial) := by
  refine ⟨by decide, ?_, rfl, ?_⟩
  · exact (c5_noop_cases c5_env (some bioInitial) "  ").1 (by decide)
  · exact (c5_noop_cases c5_env (some bioInitial) "some crawled text").2 rfl

/-! ## Claim C6 -/

/-- Claim C6: in `combine_new_and_original_data`, once reconciliation runs
(there is non-blank new text), a failure of any single category's merge call
makes the whole node fail — no partially merged accumulator is produced —
and categories where the existing and new stripped texts are both empty are
passed through with their existing value unchanged. -/
theorem c6_reconciliation (merger : String → String → Except String String)
    (existing : DataObject) (new? : Option DataObject) :
    ((existing.map Prod.fst).all
        (fun f => py_strip (get_attr (new?.getD existing) f) = "") = false →
      (∃ f ∈ existing.map Prod.fst,
        ¬(py_strip (get_attr existing f) = "" ∧
          py_strip (get_attr (new?.getD existing) f) = "") ∧
        is_error (merger (display_or_placeholder (py_strip (get_attr existing f)))
          (display_or_placeholder (py_strip (get_attr (new?.getD existing) f)))) = true) →
      is_error (combine_new_and_original_data merger (some existing) new?) = true) ∧
    (∀ result,
      combine_new_and_original_data merger (some existing) new? = Except.ok (some result) →
      ∀ f ∈ existing.map Prod.fst,
        py_strip (get_attr existing f) = "" →
        py_strip (get_attr (new?.getD existing) f) = "" →
        get_attr result f = get_attr existing f) := by
  constructor
  · intro hall hex
    simp only [combine_new_and_original_data]
    rw [if_neg (by simp [hall])]
    have herr := merge_fields_error merger existing (new?.getD existing) _ hex
    cases hm : merge_fields merger existing (new?.getD existing) (existing.map Prod.fst) with
    | error e => simp [is_error]
    | ok merged => rw [hm] at herr; simp [is_error] at herr
  · intro result hok f hf he hn
    simp only [combine_new_and_original_data] at hok
    by_cases hall : (existing.map Prod.fst).all
        (fun g => py_strip (get_attr (new?.getD existing) g) = "") = true
    · rw [if_pos hall] at hok
      simp only [Except.ok.injEq, Option.some.injEq] at hok
      rw [← hok]
    · rw [if_neg hall] at hok
      cases hm : merge_fields merger existing (new?.getD existing)
          (existing.map Prod.fst) with
      | error e => rw [hm] at hok; cases hok
      | ok merged =>
        rw [hm] at hok
        simp only [Except.ok.injEq, Option.some.injEq] at hok
        rw [← hok]
        rw [get_attr_map_self (fun g => (List.lookup g merged).getD (get_attr existing g))
          (existing.map Prod.fst) f hf]
        rw [merge_fields_skip_lookup merger existing (new?.getD existing) f he hn
          (existing.map Prod.fst) merged hm]
        rfl

/-- Witness for `c6_reconciliation`: with new text in `career`, a failing
merge call fails the whole node; with a succeeding merge call, the blank
`early` category keeps its existing value. -/
theorem c6_witness :
    is_error (combine_new_and_original_data c6_failMerger (some c6_existing)
      (some c6_new)) = true ∧
    get_attr [("early", ""), ("career", "m")] "early" = get_attr c6_existing "early" := by
  constructor
  · exact (c6_reconciliation c6_failMerger c6_existing (some c6_new)).1 (by decide)
      ⟨"career", by decide, by decide, rfl⟩
  · exact (c6_reconciliation c6_okMerger c6_existing (some c6_new)).2
      [("early", ""), ("career", "m")] rfl "early" (by decide) (by decide) (by decide)

/-! ## Claim C7 -/

/-- Claim C7, as stated, fails for a reflection turn: a turn whose decision
carries one `think_tool` call appends the decision `AIMessage` *and* one
`ToolMessage`, i.e. two records, not exactly one. -/
theorem c7_counterexample :
    (supervisor_turn 5 (SupState.mk [] 0) ai_decision [ToolCall.think "assess"]
        []).conversation_history.length ≠
      (SupState.mk [] 0).conversation_history.length + 1 := by
  decide

/-- Claim C7 (amended): each supervisor turn increments `iteration_count` by
exactly one regardless of branch, and appends `1 + k` records to the
conversation history: the one decision record, plus `k = 0` when the turn
routes to structuring (finish, no tool calls, or cap exceeded), `k` = the
number of think reflections when no research call is present, and `k` = the
number of successful research queries otherwise. -/
theorem c7_turn_effects (maxIter : Nat) (s : SupState) (decision : ToolMsg)
    (calls : List ToolCall) (outcomes : List ResearchOutcome) :
    (supervisor_turn maxIter s decision calls outcomes).iteration_count =
      s.iteration_count + 1 ∧
    (supervisor_turn maxIter s decision calls outcomes).conversation_history.length =
      s.conversation_history.length + 1 +
        expected_tool_msg_count (s.iteration_count + 1) maxIter calls outcomes := by
  unfold supervisor_turn supervisor_tools_update supervisor_node_update
    supervisor_tools_messages expected_tool_msg_count override_reducer
  by_cases h1 : (calls.isEmpty || decide (maxIter ≤ s.iteration_count + 1)) = true
  · simp [h1]
  · cases hc : collect_calls calls with
    | none => simp [h1, hc]
    | some p =>
      cases p with
      | mk thinks questions =>
        by_cases hq : questions.isEmpty
        · simp [h1, hc, hq]
          omega
        · simp [h1, hc, hq]
          omega

/-! ## Claim C9 -/

/-- Claim C9: when the search backend returns zero candidates for a
(non-empty) sub-question, the query-executor run returns the input
accumulator and used-domain list unchanged and issues no crawl. -/
theorem c9_zero_candidates {α : Type} (env : ExecutorEnv α)
    (search : String → Nat → List String → List SearchCandidate)
    (select_best : List SearchCandidate → List String)
    (question : String) (acc : α) (used : List String)
    (hq : question ≠ "") (hs : search question 6 used = []) :
    query_executor_run env search select_best question acc used =
      (([] : List String), Except.ok (acc, used)) := by
  simp [query_executor_run, hq, hs]

/-- Witness for `c9_zero_candidates` at a concrete run with an
always-empty search backend. -/
theorem c9_zero_candidates_witness :
    ("Ada Lovelace biography" : String) ≠ "" ∧
    query_executor_run idEnv (fun _ _ _ => []) (fun _ => []) "Ada Lovelace biography"
        0 [] = (([] : List String), Except.ok (0, [])) :=
  ⟨by decide, c9_zero_candidates idEnv (fun _ _ _ => []) (fun _ => [])
    "Ada Lovelace biography" 0 [] (by decide) rfl⟩

/-! ## Claim C10 -/

/-- Claim C10: when the decision carries both `think_tool` and
`ResearchEventsTool` calls (and the turn is not capped), the tools node
resets the collected message list, so the appended messages are exactly one
research `ToolMessage` per successful query — every appended message is a
research message and no think message survives. -/
theorem c10_think_messages_discarded (maxIter iteration_count : Nat)
    (calls : List ToolCall) (outcomes : List ResearchOutcome)
    (thinks questions : List String)
    (hcap : (calls.isEmpty || decide (maxIter ≤ iteration_count)) = false)
    (hc : collect_calls calls = some (thinks, questions))
    (_hthink : thinks ≠ []) (hq : questions ≠ []) :
    supervisor_tools_messages iteration_count maxIter calls outcomes =
      ToolsRoute.toSupervisor ((batch_successes outcomes).map fun _ => research_message) ∧
    (∀ m ∈ (batch_successes outcomes).map fun _ => research_message,
      m.name = "ResearchEventsTool") ∧
    ∀ r, think_message r ∉ (batch_successes outcomes).map fun _ => research_message := by
  refine ⟨?_, ?_, ?_⟩
  · simp [supervisor_tools_messages, hcap, hc, List.isEmpty_iff, hq]
  · intro m hm
    simp only [List.mem_map] at hm
    obtain ⟨s, hs, rfl⟩ := hm
    rfl
  · intro r hmem
    simp only [List.mem_map] at hmem
    obtain ⟨s, hs, habs⟩ := hmem
    simp [research_message, think_message, ToolMsg.mk.injEq] at habs

/-- Witness for `c10_think_messages_discarded`: a turn with one think call
and one research call whose single query succeeds. -/
theorem c10_think_messages_witness :
    supervisor_tools_messages 1 5 [ToolCall.think "plan", ToolCall.research "q"]
        [some (some bioInitial, [])] =
      ToolsRoute.toSupervisor
        ((batch_successes [some (some bioInitial, [])]).map fun _ => research_message) ∧
    (∀ m ∈ (batch_successes [some (some bioInitial, [])]).map fun _ => research_message,
      m.name = "ResearchEventsTool") ∧
    ∀ r, think_message r ∉ (batch_successes [some (some bioInitial, [])]).map
      fun _ => research_message :=
  c10_think_messages_discarded 5 1 [ToolCall.think "plan", ToolCall.research "q"]
    [some (some bioInitial, [])] ["plan"] ["q"] (by decide) rfl (by decide) (by decide)

end EventDeepResearch
